import Mathlib

/-!
# Brasileirão command-line client

A shallow embedding of the two programs of the repository:

* `src/main.go`, the script (`getJogos`, `getCampeao`, `fazerRequisicao`, `main`), in
  namespace `Brasileirao.Script`;
* `src/client/main.go`, the struct-based client (`APIClient`, `CLIHandler`), in namespace
  `Brasileirao.Client`.

What the Go runtime supplies is made explicit:

* the command line is represented by the two flag values left by `flag.Parse()` (the
  empty string is the default of both flags);
* the network is a `Transport`: the outcome of `http.Get` followed by `io.ReadAll` for a
  URL. Every call of `Get` is recorded in the `requests` field of the result;
* `encoding/json` is a `Json` record holding the three uses of `json.Unmarshal`;
* standard output is the string of the bytes written, the exit status a natural number;
  `os.Exit` ends the run, which is why every handler returns the whole `RunResult`;
* `fmt.Errorf` with a format and no operand is `Fmt.errorf0`, a transcription of the
  standard library formatting loop for an empty operand list; `fmt.Errorf` and
  `fmt.Printf` with the verbs `%s` and `%v` applied to strings and errors are string
  concatenation.

The records of the two programs have the same fields and json tags under Portuguese
(`Time`, `Jogo`, `Rodada`, `Campeao`, `ErroResponse`) and English names; one structure
stands for both, with the field names of the client.
-/

namespace Brasileirao

/-! ## Data model -/

/-- Record `Team` (`Time` in the script): json fields `nome`, `gols`. -/
structure Team where
  Name : String
  Goals : Int
deriving DecidableEq, Repr

/-- Record `Match` (`Jogo`): json fields `data`, `mandante`, `visitante`, `placar`. -/
structure Match where
  Date : String
  HomeTeam : Team
  AwayTeam : Team
  Score : String
deriving DecidableEq, Repr

/-- Record `Round` (`Rodada`): json fields `ano`, `rodada`, `jogos`. -/
structure Round where
  Year : String
  Number : String
  Matches : List Match
deriving DecidableEq, Repr

/-- Record `Champion` (`Campeao`): json fields `ano`, `campeao`. -/
structure Champion where
  Year : String
  ChampionTeam : String
deriving DecidableEq, Repr

/-- Record `ErrorResponse` (`ErroResponse`): json field `erro`. -/
structure ErrorResponse where
  Message : String
deriving DecidableEq, Repr

/-- Go zero value of `Round` (`&Round{}`, `var data T`). -/
def Round.zero : Round := ⟨"", "", []⟩

/-- Go zero value of `Champion`. -/
def Champion.zero : Champion := ⟨"", ""⟩

/-! ## Environment -/

/-- What `http.Get(url)` followed by `io.ReadAll(resp.Body)` gives: `Get` returns an
error, or the body cannot be read, or a status code and the whole body. -/
inductive Outcome where
  | getError (err : String)
  | readError (err : String)
  | response (status : Nat) (body : String)
deriving DecidableEq, Repr

/-- The network seen from the program: the outcome for each requested URL. -/
abbrev Transport := String → Outcome

/-- The three instances of `json.Unmarshal(body, &v)` used by the program, `v` being a
fresh zero value: the value left in `v` and the error (`none` is Go `nil`). -/
structure Json where
  unmarshalErrorResponse : String → ErrorResponse × Option String
  unmarshalRound : String → Round × Option String
  unmarshalChampion : String → Champion × Option String

/-- `http.StatusOK`. -/
def StatusOK : Nat := 200

/-- The observable behaviour of one run: the URLs passed to `Get`, in order, the bytes
written to standard output and the exit status. -/
structure RunResult where
  requests : List String
  stdout : String
  exit : Nat
deriving DecidableEq, Repr

/-- Result of a transport operation: the URLs requested, the record returned and the
error (`none` is `nil`). -/
structure Fetch (α : Type) where
  requests : List String
  result : α
  err : Option String

/-! ## `fmt` with a format and no operand -/

namespace Fmt

/-- `tooLarge` of package `fmt`. -/
def tooLarge (x : Nat) : Bool := decide (x > 1000000)

/-- `parsenum(s, start, end)` on the slice `s[start:end]`: the number read, whether a
digit was read, and what is left of the slice (nothing after an overflow, where the
library returns `end`). -/
def parsenum : List Char → Nat → Bool → Nat × Bool × List Char
  | [], num, isnum => (num, isnum, [])
  | c :: cs, num, isnum =>
    if '0' ≤ c ∧ c ≤ '9' then
      if tooLarge num then (0, false, [])
      else parsenum cs (num * 10 + (c.toNat - '0'.toNat)) true
    else (num, isnum, c :: cs)

/-- `parseArgNumber(format)`, `format` starting with the opening bracket: the index, the
number of characters to consume and whether the bracketed number parsed. -/
def parseArgNumber (format : List Char) : Int × Nat × Bool :=
  if format.length < 3 then (0, 1, false)
  else
    let inside := (format.drop 1).takeWhile (fun c => c != ']')
    if (format.drop 1).all (fun c => c != ']') then (0, 1, false)
    else
      match parsenum inside 0 false with
      | (width, ok, rest) =>
        if !ok || !rest.isEmpty then (0, inside.length + 2, false)
        else ((width : Int) - 1, inside.length + 2, true)

/-- State of the formatter while one verb is read: the format still to read, the text
written for this verb so far, and the two flags `goodArgNum` and `afterIndex`. -/
structure Verb where
  rest : List Char
  out : List Char
  goodArgNum : Bool
  afterIndex : Bool

/-- `argNumber(argNum, format, i, numArgs)` with `numArgs = 0`: no index is ever in
range, so a bracket always clears `goodArgNum`. -/
def argNumber (numArgs : Nat) (v : Verb) : Verb :=
  match v.rest with
  | '[' :: _ =>
    match parseArgNumber v.rest with
    | (index, wid, ok) =>
      if ok && decide (0 ≤ index) && decide (index < (numArgs : Int)) then
        { v with rest := v.rest.drop wid, afterIndex := true }
      else
        { v with rest := v.rest.drop wid, goodArgNum := false, afterIndex := ok }
  | _ => { v with afterIndex := false }

/-- The flag characters skipped by the `simpleFormat` loop. -/
def isFlag (c : Char) : Bool :=
  c == '#' || c == '0' || c == '+' || c == '-' || c == ' '

/-- Width: a star has no operand to read (`%!(BADWIDTH)`), otherwise `parsenum`. -/
def width (v : Verb) : Verb :=
  match v.rest with
  | '*' :: cs =>
    { v with rest := cs, out := v.out ++ "%!(BADWIDTH)".toList, afterIndex := false }
  | _ =>
    match parsenum v.rest 0 false with
    | (_, widPresent, rest) =>
      { v with rest := rest,
               goodArgNum := if v.afterIndex && widPresent then false else v.goodArgNum }

/-- Precision, after the dot and the optional index: a star has no operand to read
(`%!(BADPREC)`), otherwise `parsenum`. -/
def precisionValue (v : Verb) : Verb :=
  match v.rest with
  | '*' :: cs =>
    { v with rest := cs, out := v.out ++ "%!(BADPREC)".toList, afterIndex := false }
  | _ =>
    match parsenum v.rest 0 false with
    | (_, _, rest) => { v with rest := rest }

/-- Precision: after a dot, an optional index, then a star or a number. -/
def precision (numArgs : Nat) (v : Verb) : Verb :=
  match v.rest with
  | '.' :: cs =>
    precisionValue (argNumber numArgs
      { v with rest := cs, goodArgNum := if v.afterIndex then false else v.goodArgNum })
  | _ => v

/-- The verb itself: `%!(NOVERB)` at the end of the format, `%` for a percent sign,
`%!c(BADINDEX)` after a bad index and `%!c(MISSING)` otherwise, no operand being left.
The result is the text written and the format still to read (`none` when the loop
breaks). -/
def verb (v : Verb) : List Char × Option (List Char) :=
  let v3 := if v.afterIndex then v else argNumber 0 v
  match v3.rest with
  | [] => (v3.out ++ "%!(NOVERB)".toList, none)
  | c :: cs =>
    if c == '%' then (v3.out ++ ['%'], some cs)
    else if !v3.goodArgNum then (v3.out ++ "%!".toList ++ [c] ++ "(BADINDEX)".toList, some cs)
    else (v3.out ++ "%!".toList ++ [c] ++ "(MISSING)".toList, some cs)

/-- One verb, from the character after the percent sign: flags, index, width, precision,
index, verb. The first `argNumber` sets `afterIndex` whatever it was. -/
def oneVerb (s : List Char) : List Char × Option (List Char) :=
  let v0 : Verb :=
    { rest := s.dropWhile isFlag, out := [], goodArgNum := true, afterIndex := false }
  verb (precision 0 (width (argNumber 0 v0)))

/-- `doPrintf(format, a)` with `a` empty. Each iteration copies the text before the next
percent sign and formats one verb; the first argument bounds the number of iterations. -/
def doPrintf : Nat → List Char → List Char
  | 0, _ => []
  | fuel + 1, format =>
    let text := format.takeWhile (fun c => c != '%')
    match format.dropWhile (fun c => c != '%') with
    | [] => text
    | _ :: s =>
      match oneVerb s with
      | (out, none) => text ++ out
      | (out, some rest) => text ++ out ++ doPrintf fuel rest

/-- Text of the error `fmt.Errorf(format)`: the format contains at most `length` percent
signs, one more iteration than that ends the loop. -/
def errorf0 (format : String) : String :=
  ⟨doPrintf (format.length + 1) format.data⟩

end Fmt

/-! ## `src/client/main.go` -/

namespace Client

/-- Constant `baseURL`. -/
def baseURL : String := "http://localhost:8000"

/-- Constant `usageMsg`. -/
def usageMsg : String := "Uso: go run main.go -ano=2023 [-rodada=37]"

/-- Constant `helpMsg`. -/
def helpMsg : String := "Se a rodada não for informada, mostra o campeão do ano"

/-- `APIClient.handleErrorResponse`: the error returned for a body read from a response
whose status is not `StatusOK`. The message of the server is passed to `fmt.Errorf` as
the format. -/
def handleErrorResponse (j : Json) (body : String) : Option String :=
  match (j.unmarshalErrorResponse body).2 with
  | some _ => some (Fmt.errorf0 "unknown server error")
  | none => some (Fmt.errorf0 (j.unmarshalErrorResponse body).1.Message)

/-- `APIClient.makeRequest(url, result)`: one `Get`, then the classification of the
outcome. `unmarshal` is `json.Unmarshal` at the type of `result`; `result` is left as it
was on every path that does not reach `json.Unmarshal(body, result)`. -/
def makeRequest {α : Type} (t : Transport) (j : Json) (unmarshal : String → α × Option String)
    (url : String) (result : α) : Fetch α :=
  match t url with
  | .getError err => ⟨[url], result, some ("request error: " ++ err)⟩
  | .readError err => ⟨[url], result, some ("response read error: " ++ err)⟩
  | .response status body =>
    if status ≠ StatusOK then ⟨[url], result, handleErrorResponse j body⟩
    else ⟨[url], (unmarshal body).1, (unmarshal body).2⟩

/-- `APIClient.GetMatches(year, round)`. -/
def GetMatches (t : Transport) (j : Json) (year round : String) : Fetch Round :=
  makeRequest t j j.unmarshalRound (baseURL ++ "/jogos/" ++ year ++ "/" ++ round) Round.zero

/-- `APIClient.GetChampion(year)`. -/
def GetChampion (t : Transport) (j : Json) (year : String) : Fetch Champion :=
  makeRequest t j j.unmarshalChampion (baseURL ++ "/campeao/" ++ year) Champion.zero

/-- The line printed for one match by the loop of `displayMatches`. -/
def matchLine (m : Match) : String :=
  m.Date ++ ": " ++ m.HomeTeam.Name ++ " " ++ m.Score ++ " " ++ m.AwayTeam.Name ++ "\n"

/-- `CLIHandler.displayMatches(data)`: the bytes written, the header first and then one
`Printf` for each match of the range loop. -/
def displayMatches (data : Round) : String :=
  data.Matches.foldl (fun out m => out ++ matchLine m)
    ("Jogos da rodada " ++ data.Number ++ " do Brasileirão " ++ data.Year ++ ":\n\n")

/-- `CLIHandler.handleChampionQuery(year)`. -/
def handleChampionQuery (t : Transport) (j : Json) (year : String) : RunResult :=
  let f := GetChampion t j year
  match f.err with
  | some err => ⟨f.requests, err ++ "\n", 0⟩
  | none =>
    if f.result.ChampionTeam = "" then
      ⟨f.requests, "Ainda não houve campeão para o Brasileirão " ++ year ++ "\n", 0⟩
    else
      ⟨f.requests,
        "Campeão do Brasileirão " ++ f.result.Year ++ ": " ++ f.result.ChampionTeam ++ "\n", 0⟩

/-- `CLIHandler.handleRoundQuery(year, round)`. -/
def handleRoundQuery (t : Transport) (j : Json) (year round : String) : RunResult :=
  let f := GetMatches t j year round
  match f.err with
  | some err => ⟨f.requests, "Erro: " ++ err ++ "\n", 1⟩
  | none =>
    if f.result.Matches.length = 0 then
      ⟨f.requests, "Ainda não há jogos disponíveis para o Brasileirão " ++ year ++ "\n", 0⟩
    else
      ⟨f.requests, displayMatches f.result, 0⟩

/-- `CLIHandler.parseFlags()` on the values of `-ano` and `-rodada`: the run ends here
when the year is empty, otherwise the two values are returned. -/
def parseFlags (year round : String) : Except RunResult (String × String) :=
  if year = "" then .error ⟨[], usageMsg ++ "\n" ++ helpMsg ++ "\n", 1⟩
  else .ok (year, round)

/-- `CLIHandler.Run()` (all of `main`), on the values of the two flags. -/
def Run (t : Transport) (j : Json) (ano rodada : String) : RunResult :=
  match parseFlags ano rodada with
  | .error r => r
  | .ok (year, round) =>
    if round = "" then handleChampionQuery t j year
    else handleRoundQuery t j year round

end Client

/-! ## `src/main.go` -/

namespace Script

/-- `fazerRequisicao[T](url)`: the pointer returned is `nil` (`none`) whenever the error
is not. `unmarshal` is `json.Unmarshal` at type `T`. -/
def fazerRequisicao {α : Type} (t : Transport) (j : Json)
    (unmarshal : String → α × Option String) (url : String) : Fetch (Option α) :=
  match t url with
  | .getError err => ⟨[url], none, some ("erro ao fazer requisição: " ++ err)⟩
  | .readError err => ⟨[url], none, some ("erro ao ler resposta: " ++ err)⟩
  | .response status body =>
    if status ≠ StatusOK then
      match (j.unmarshalErrorResponse body).2 with
      | some _ => ⟨[url], none, some (Fmt.errorf0 "erro desconhecido do servidor")⟩
      | none => ⟨[url], none, some (Fmt.errorf0 (j.unmarshalErrorResponse body).1.Message)⟩
    else
      match (unmarshal body).2 with
      | some err => ⟨[url], none, some ("erro ao decodificar JSON: " ++ err)⟩
      | none => ⟨[url], some (unmarshal body).1, none⟩

/-- `getJogos(ano, rodada)`. -/
def getJogos (t : Transport) (j : Json) (ano rodada : String) : Fetch (Option Round) :=
  fazerRequisicao t j j.unmarshalRound ("http://localhost:8000/jogos/" ++ ano ++ "/" ++ rodada)

/-- `getCampeao(ano)`. -/
def getCampeao (t : Transport) (j : Json) (ano : String) : Fetch (Option Champion) :=
  fazerRequisicao t j j.unmarshalChampion ("http://localhost:8000/campeao/" ++ ano)

/-- The line printed for one match by the loop at the end of `main`. -/
def jogoLine (jogo : Match) : String :=
  jogo.Date ++ ": " ++ jogo.HomeTeam.Name ++ " " ++ jogo.Score ++ " " ++ jogo.AwayTeam.Name
    ++ "\n"

/-- `main()` on the values of the flags `-ano` and `-rodada`. A `nil` pointer with a
`nil` error is never returned by `fazerRequisicao`; dereferencing it would end the run
with the status 2 of a Go panic. -/
def main (t : Transport) (j : Json) (ano rodada : String) : RunResult :=
  if ano = "" then
    ⟨[], "Uso: go run main.go -ano=2023 [-rodada=37]" ++ "\n"
      ++ "Se a rodada não for informada, mostra o campeão do ano" ++ "\n", 1⟩
  else if rodada = "" then
    let f := getCampeao t j ano
    match f.err, f.result with
    | some err, _ => ⟨f.requests, err ++ "\n", 0⟩
    | none, none => ⟨f.requests, "", 2⟩
    | none, some campeao =>
      if campeao.ChampionTeam = "" then
        ⟨f.requests, "Ainda não houve campeão para o Brasileirão " ++ ano ++ "\n", 0⟩
      else
        ⟨f.requests,
          "Campeão do Brasileirão " ++ campeao.Year ++ ": " ++ campeao.ChampionTeam ++ "\n", 0⟩
  else
    let f := getJogos t j ano rodada
    match f.err, f.result with
    | some err, _ => ⟨f.requests, "Erro: " ++ err ++ "\n", 1⟩
    | none, none => ⟨f.requests, "", 2⟩
    | none, some dados =>
      if dados.Matches.length = 0 then
        ⟨f.requests, "Ainda não há jogos disponíveis para o Brasileirão " ++ ano ++ "\n", 0⟩
      else
        ⟨f.requests,
          dados.Matches.foldl (fun out jogo => out ++ jogoLine jogo)
            ("Jogos da rodada " ++ dados.Number ++ " do Brasileirão " ++ dados.Year ++ ":\n\n"),
          0⟩

end Script

/-! ## Sample bodies

The bodies used in the examples below and what `json.Unmarshal` leaves for each of them
in the three record shapes: a JSON object decodes into every struct, the fields it does
not name keeping their zero value; a body that is not JSON is an error for all three. -/

namespace Sample

/-- Body of a round with one match (the example of the specification). -/
def roundBody : String :=
  "\x7b\"ano\":\"2023\",\"rodada\":\"1\",\"jogos\":[\x7b\"data\":\"2023-04-01\",\"mandante\":\x7b\"nome\":\"A\"\x7d,\"visitante\":\x7b\"nome\":\"B\"\x7d,\"placar\":\"1-0\"\x7d]\x7d"

/-- Body of a round without matches. -/
def emptyRoundBody : String := "\x7b\"ano\":\"2023\",\"rodada\":\"38\",\"jogos\":[]\x7d"

/-- Body of a year without champion. -/
def noChampionBody : String := "\x7b\"ano\":\"2023\",\"campeao\":\"\"\x7d"

/-- Body of a champion whose year is not the year of the examples. -/
def championBody : String := "\x7b\"ano\":\"2022\",\"campeao\":\"Palmeiras\"\x7d"

/-- Error body of the specification. -/
def errorBody : String := "\x7b\"erro\":\"ano inválido\"\x7d"

/-- Error body whose message ends with a percent sign. -/
def percentBody : String := "\x7b\"erro\":\"100%\"\x7d"

/-- A body that is not JSON. -/
def htmlBody : String := "<html>"

/-- Error text of `json.Unmarshal` on `htmlBody`. -/
def htmlErr : String := "invalid character '<' looking for beginning of value"

/-- The decoder restricted to the sample bodies (any other body is answered like
`htmlBody`, which is only meaningful for bodies that are not JSON). -/
def json : Json where
  unmarshalErrorResponse body :=
    if body = errorBody then (⟨"ano inválido"⟩, none)
    else if body = percentBody then (⟨"100%"⟩, none)
    else if body = roundBody ∨ body = emptyRoundBody ∨ body = noChampionBody
        ∨ body = championBody then (⟨""⟩, none)
    else (⟨""⟩, some htmlErr)
  unmarshalRound body :=
    if body = roundBody then
      (⟨"2023", "1", [⟨"2023-04-01", ⟨"A", 0⟩, ⟨"B", 0⟩, "1-0"⟩]⟩, none)
    else if body = emptyRoundBody then (⟨"2023", "38", []⟩, none)
    else if body = noChampionBody then (⟨"2023", "", []⟩, none)
    else if body = championBody then (⟨"2022", "", []⟩, none)
    else if body = errorBody ∨ body = percentBody then (Round.zero, none)
    else (Round.zero, some htmlErr)
  unmarshalChampion body :=
    if body = noChampionBody then (⟨"2023", ""⟩, none)
    else if body = championBody then (⟨"2022", "Palmeiras"⟩, none)
    else if body = roundBody ∨ body = emptyRoundBody then (⟨"2023", ""⟩, none)
    else if body = errorBody ∨ body = percentBody then (Champion.zero, none)
    else (Champion.zero, some htmlErr)

/-- A server answering every request with the given status and body. -/
def server (status : Nat) (body : String) : Transport := fun _ => .response status body

end Sample

/-! ## Reading the output as lines -/

/-- The text made of the given lines, each one ended by a newline. -/
def unlines (ls : List String) : String := String.join (ls.map fun l => l ++ "\n")

/-- The match line of the specification: `date: homeTeam score awayTeam`. -/
def specMatchLine (m : Match) : String :=
  m.Date ++ ": " ++ m.HomeTeam.Name ++ " " ++ m.Score ++ " " ++ m.AwayTeam.Name

/-- The header line printed before the matches of a round. -/
def headerLine (data : Round) : String :=
  "Jogos da rodada " ++ data.Number ++ " do Brasileirão " ++ data.Year ++ ":"

/-- The URL requested for a non-empty year: the champion path without round, the round
path with one. -/
def requestURL (year round : String) : String :=
  if round = "" then Client.baseURL ++ "/campeao/" ++ year
  else Client.baseURL ++ "/jogos/" ++ year ++ "/" ++ round

/-- The outcome is a response whose body decodes: as ErrorResponse when the status is
not 200, as Champion (no round) or Round (with a round) when it is. These are the
outcomes for which no error text is worded by the program itself. -/
def Decoded (j : Json) (round : String) : Outcome → Prop
  | .response status body =>
    if status ≠ StatusOK then (j.unmarshalErrorResponse body).2 = none
    else if round = "" then (j.unmarshalChampion body).2 = none
    else (j.unmarshalRound body).2 = none
  | _ => False

/-- What stands before the error text on an error line: nothing on the champion path,
`Erro: ` on the round path. -/
def errorPrefix (round : String) : String :=
  if round = "" then "" else "Erro: "

/-! ## Auxiliary facts -/

theorem join_cons (x : String) (xs : List String) : String.join (x :: xs) = x ++ String.join xs := by
  apply String.ext
  simp [String.join, String.data_append]
  have h : ∀ (l : List String) (acc : String),
      (List.foldl (fun r s => r ++ s) acc l).data = acc.data ++ (List.foldl (fun r s => r ++ s) "" l).data := by
    intro l
    induction l with
    | nil => intro acc; simp
    | cons y ys ih =>
      intro acc
      rw [List.foldl_cons, ih, List.foldl_cons, ih ("" ++ y)]
      simp [String.data_append]
  rw [h]

theorem foldl_append_join {α : Type} (f : α → String) (l : List α) (init : String) :
    l.foldl (fun out m => out ++ f m) init = init ++ String.join (l.map f) := by
  induction l generalizing init with
  | nil => simp [String.join]
  | cons x xs ih => rw [List.foldl_cons, ih, List.map_cons, join_cons, String.append_assoc]

theorem unlines_cons (x : String) (xs : List String) :
    unlines (x :: xs) = x ++ "\n" ++ unlines xs := by
  simp [unlines, join_cons]

theorem unlines_nil : unlines [] = "" := rfl

theorem unlines_map {α : Type} (f : α → String) (l : List α) :
    unlines (l.map f) = String.join (l.map fun m => f m ++ "\n") := by
  simp [unlines, List.map_map, Function.comp_def]

theorem displayMatches_eq (data : Round) :
    Client.displayMatches data
      = unlines (headerLine data :: "" :: data.Matches.map specMatchLine) := by
  unfold Client.displayMatches
  rw [foldl_append_join, unlines_cons, unlines_cons, unlines_map]
  have h1 : (fun m => specMatchLine m ++ "\n") = Client.matchLine := by
    funext m; rfl
  have h2 : "Jogos da rodada " ++ data.Number ++ " do Brasileirão " ++ data.Year ++ ":\n\n"
      = headerLine data ++ "\n" ++ ("" ++ "\n") := by
    unfold headerLine
    simp only [String.append_assoc]
    rfl
  rw [h1, h2, String.append_assoc (headerLine data ++ "\n")]

theorem script_url_jogos (ano rodada : String) :
    "http://localhost:8000/jogos/" ++ ano ++ "/" ++ rodada
      = Client.baseURL ++ "/jogos/" ++ ano ++ "/" ++ rodada := rfl

theorem script_url_campeao (ano : String) :
    "http://localhost:8000/campeao/" ++ ano = Client.baseURL ++ "/campeao/" ++ ano := rfl

theorem script_display_eq (data : Round) :
    data.Matches.foldl (fun out jogo => out ++ Script.jogoLine jogo)
        ("Jogos da rodada " ++ data.Number ++ " do Brasileirão " ++ data.Year ++ ":\n\n")
      = Client.displayMatches data := rfl

theorem length_ne_zero_of_ne_nil {α : Type} (l : List α) (h : l ≠ []) : ¬ l.length = 0 := by
  cases l with
  | nil => exact absurd rfl h
  | cons x xs => simp

/-! ## Round display (C1) -/

/-- C1, as amended: for a non-empty year and round, a response of status 200 whose body
decodes to a Round with at least one match makes both programs print the header line with
the number and year of the Round, then an empty line, then one line per match in the order
of the list, the line of a match being `date: homeTeam score awayTeam`; nothing else is
printed and the exit status is 0. -/
theorem round_display (t : Transport) (j : Json) (year round body : String) (data : Round)
    (hy : year ≠ "") (hr : round ≠ "")
    (ht : t (Client.baseURL ++ "/jogos/" ++ year ++ "/" ++ round) = .response 200 body)
    (hj : j.unmarshalRound body = (data, none)) (hm : data.Matches ≠ []) :
    Client.Run t j year round =
        ⟨[Client.baseURL ++ "/jogos/" ++ year ++ "/" ++ round],
          unlines (headerLine data :: "" :: data.Matches.map specMatchLine), 0⟩
      ∧ Script.main t j year round =
        ⟨[Client.baseURL ++ "/jogos/" ++ year ++ "/" ++ round],
          unlines (headerLine data :: "" :: data.Matches.map specMatchLine), 0⟩ := by
  have hlen := length_ne_zero_of_ne_nil _ hm
  constructor
  · simp [Client.Run, Client.parseFlags, hy, hr, Client.handleRoundQuery, Client.GetMatches,
      Client.makeRequest, ht, hj, StatusOK, hlen, displayMatches_eq]
  · simp [Script.main, hy, hr, Script.getJogos, Script.fazerRequisicao, script_url_jogos, ht, hj,
      StatusOK, hlen, script_display_eq, displayMatches_eq]

/-- Witness of C1 as amended, on the Round of the specification. -/
theorem round_display_witness :
    Client.Run (Sample.server 200 Sample.roundBody) Sample.json "2023" "1" =
        ⟨["http://localhost:8000/jogos/2023/1"],
          unlines ["Jogos da rodada 1 do Brasileirão 2023:", "", "2023-04-01: A 1-0 B"], 0⟩
      ∧ Script.main (Sample.server 200 Sample.roundBody) Sample.json "2023" "1" =
        ⟨["http://localhost:8000/jogos/2023/1"],
          unlines ["Jogos da rodada 1 do Brasileirão 2023:", "", "2023-04-01: A 1-0 B"], 0⟩ :=
  round_display (Sample.server 200 Sample.roundBody) Sample.json "2023" "1" Sample.roundBody
    ⟨"2023", "1", [⟨"2023-04-01", ⟨"A", 0⟩, ⟨"B", 0⟩, "1-0"⟩]⟩
    (by decide) (by decide) rfl rfl (by simp)

/-- C1 as stated fails on the Round of the specification: whatever the header line is,
the output is not that line followed by exactly the match line, an empty line stands
between them. -/
theorem round_display_not_adjacent :
    ¬ ∃ header : String, '\n' ∉ header.data ∧
      (Client.Run (Sample.server 200 Sample.roundBody) Sample.json "2023" "1").stdout
        = unlines [header, "2023-04-01: A 1-0 B"] := by
  rintro ⟨header, hnl, heq⟩
  have hrun : (Client.Run (Sample.server 200 Sample.roundBody) Sample.json "2023" "1").stdout
      = "Jogos da rodada 1 do Brasileirão 2023:\n" ++ "\n2023-04-01: A 1-0 B\n" := by rfl
  have hun : unlines [header, "2023-04-01: A 1-0 B"] = header ++ "\n2023-04-01: A 1-0 B\n" := by
    rw [unlines_cons, unlines_cons, unlines_nil, String.append_assoc]
    rfl
  rw [hrun, hun] at heq
  have hd := congrArg String.data heq
  rw [String.data_append, String.data_append] at hd
  have hh := List.append_cancel_right hd
  apply hnl
  rw [← hh]
  decide

/-! ## Formatting an error text without operands -/

theorem doPrintf_of_no_percent (fuel : Nat) (format : List Char) (h : '%' ∉ format) :
    Fmt.doPrintf (fuel + 1) format = format := by
  have hall : ∀ c ∈ format, (c != '%') = true := by
    intro c hc
    have : c ≠ '%' := fun e => h (e ▸ hc)
    simpa using this
  have htake : format.takeWhile (fun c => c != '%') = format :=
    List.takeWhile_eq_self_iff.mpr hall
  have hdrop : format.dropWhile (fun c => c != '%') = [] :=
    List.dropWhile_eq_nil_iff.mpr hall
  simp only [Fmt.doPrintf, hdrop, htake]

theorem parsenum_length (s : List Char) (num : Nat) (isnum : Bool) :
    (Fmt.parsenum s num isnum).2.2.length ≤ s.length := by
  induction s generalizing num isnum with
  | nil => simp [Fmt.parsenum]
  | cons c cs ih =>
    unfold Fmt.parsenum
    split
    · split
      · simp
      · exact Nat.le_succ_of_le (ih _ _)
    · simp

theorem argNumber_length (k : Nat) (v : Fmt.Verb) :
    (Fmt.argNumber k v).rest.length ≤ v.rest.length := by
  unfold Fmt.argNumber
  split
  · split
    split <;> simp
  · simp

theorem width_length (v : Fmt.Verb) : (Fmt.width v).rest.length ≤ v.rest.length := by
  unfold Fmt.width
  split
  · rename_i cs h
    simp [h]
  · split
    rename_i n b rest h
    have := parsenum_length v.rest 0 false
    rw [h] at this
    exact this

theorem precisionValue_length (v : Fmt.Verb) :
    (Fmt.precisionValue v).rest.length ≤ v.rest.length := by
  unfold Fmt.precisionValue
  split
  · rename_i cs h
    simp [h]
  · split
    rename_i n b rest h
    have := parsenum_length v.rest 0 false
    rw [h] at this
    exact this

theorem precision_length (k : Nat) (v : Fmt.Verb) :
    (Fmt.precision k v).rest.length ≤ v.rest.length := by
  unfold Fmt.precision
  split
  · rename_i cs h
    refine Nat.le_trans (precisionValue_length _) ?_
    refine Nat.le_trans (argNumber_length k _) ?_
    simp [h]
  · exact Nat.le_refl _

theorem verb_length (v : Fmt.Verb) (out rest : List Char)
    (h : Fmt.verb v = (out, some rest)) : rest.length < v.rest.length := by
  unfold Fmt.verb at h
  have h3 : (if v.afterIndex then v else Fmt.argNumber 0 v).rest.length ≤ v.rest.length := by
    split
    · exact Nat.le_refl _
    · exact argNumber_length 0 v
  revert h
  simp only
  split
  · intro h; simp at h
  · rename_i c cs hc
    rw [hc] at h3
    simp only [List.length_cons] at h3
    have hcs : cs.length < v.rest.length := by omega
    intro h
    have key : ∀ p : List Char × Option (List Char),
        p.2 = some cs → p = (out, some rest) → rest = cs := by
      intro p hp he
      rw [he] at hp
      exact Option.some.inj hp
    rw [key _ ?_ h]
    · exact hcs
    · repeat' split
      all_goals rfl

theorem oneVerb_length (s out rest : List Char) (h : Fmt.oneVerb s = (out, some rest)) :
    rest.length < s.length := by
  unfold Fmt.oneVerb at h
  have h1 := verb_length _ _ _ h
  have h2 := precision_length 0 (Fmt.width (Fmt.argNumber 0
    { rest := s.dropWhile Fmt.isFlag, out := [], goodArgNum := true, afterIndex := false }))
  have h3 := width_length (Fmt.argNumber 0
    { rest := s.dropWhile Fmt.isFlag, out := [], goodArgNum := true, afterIndex := false })
  have h4 := argNumber_length 0
    { rest := s.dropWhile Fmt.isFlag, out := [], goodArgNum := true, afterIndex := false }
  have h5 : (s.dropWhile Fmt.isFlag).length ≤ s.length :=
    (List.dropWhile_sublist Fmt.isFlag).length_le
  simp only at h4
  omega

/-- The bound on the iterations is never what ends the loop: every bound above the length
of the format gives the same text. -/
theorem doPrintf_fuel (n m : Nat) (format : List Char) (hn : format.length < n)
    (hm : format.length < m) : Fmt.doPrintf n format = Fmt.doPrintf m format := by
  induction n generalizing m format with
  | zero => omega
  | succ n ih =>
    cases m with
    | zero => omega
    | succ m =>
      unfold Fmt.doPrintf
      simp only
      have hd : (format.dropWhile (fun c => c != '%')).length ≤ format.length :=
        (List.dropWhile_sublist _).length_le
      split
      · rfl
      · rename_i c s hs
        rw [hs] at hd
        simp only [List.length_cons] at hd
        split
        · rfl
        · rename_i out rest ho
          have hl := oneVerb_length _ _ _ ho
          rw [ih m rest (by omega) (by omega)]

/-- A format without percent sign is the text of the error built from it. -/
theorem errorf0_of_no_percent (format : String) (h : '%' ∉ format.data) :
    Fmt.errorf0 format = format := by
  unfold Fmt.errorf0
  rw [doPrintf_of_no_percent _ _ h]

theorem errorf0_unknown : Fmt.errorf0 "unknown server error" = "unknown server error" := by
  decide

theorem errorf0_desconhecido :
    Fmt.errorf0 "erro desconhecido do servidor" = "erro desconhecido do servidor" := by
  decide

/-! ## Requests -/

theorem makeRequest_requests {α : Type} (t : Transport) (j : Json)
    (u : String → α × Option String) (url : String) (r : α) :
    (Client.makeRequest t j u url r).requests = [url] := by
  unfold Client.makeRequest
  cases t url <;> simp
  split <;> rfl

theorem fazerRequisicao_requests {α : Type} (t : Transport) (j : Json)
    (u : String → α × Option String) (url : String) :
    (Script.fazerRequisicao t j u url).requests = [url] := by
  unfold Script.fazerRequisicao
  cases t url <;> simp
  split <;> split <;> rfl

theorem fazerRequisicao_result {α : Type} (t : Transport) (j : Json)
    (u : String → α × Option String) (url : String) :
    (Script.fazerRequisicao t j u url).err = none →
      (Script.fazerRequisicao t j u url).result ≠ none := by
  unfold Script.fazerRequisicao
  cases t url <;> simp
  split <;> split <;> simp

theorem handleChampionQuery_requests (t : Transport) (j : Json) (year : String) :
    (Client.handleChampionQuery t j year).requests = [Client.baseURL ++ "/campeao/" ++ year] := by
  unfold Client.handleChampionQuery
  simp only
  split
  · exact makeRequest_requests _ _ _ _ _
  · split <;> exact makeRequest_requests _ _ _ _ _

theorem handleRoundQuery_requests (t : Transport) (j : Json) (year round : String) :
    (Client.handleRoundQuery t j year round).requests
      = [Client.baseURL ++ "/jogos/" ++ year ++ "/" ++ round] := by
  unfold Client.handleRoundQuery
  simp only
  split
  · exact makeRequest_requests _ _ _ _ _
  · split <;> exact makeRequest_requests _ _ _ _ _

/-! ## Dispatch and request path (C2) -/

/-- C2: for a non-empty year the client calls `Get` exactly once; the URL is
`baseURL ++ "/campeao/" ++ Y` when the round is empty (`GetChampion`) and
`baseURL ++ "/jogos/" ++ Y ++ "/" ++ R` otherwise (`GetMatches`). -/
theorem dispatch_request (t : Transport) (j : Json) (Y R : String) (hY : Y ≠ "") :
    (R = "" → (Client.Run t j Y R).requests = [Client.baseURL ++ "/campeao/" ++ Y]
        ∧ (Client.GetChampion t j Y).requests = [Client.baseURL ++ "/campeao/" ++ Y])
      ∧ (R ≠ "" → (Client.Run t j Y R).requests = [Client.baseURL ++ "/jogos/" ++ Y ++ "/" ++ R]
        ∧ (Client.GetMatches t j Y R).requests
          = [Client.baseURL ++ "/jogos/" ++ Y ++ "/" ++ R]) := by
  constructor
  · intro hR
    refine ⟨?_, makeRequest_requests _ _ _ _ _⟩
    simp [Client.Run, Client.parseFlags, hY, hR, handleChampionQuery_requests]
  · intro hR
    refine ⟨?_, makeRequest_requests _ _ _ _ _⟩
    simp [Client.Run, Client.parseFlags, hY, hR, handleRoundQuery_requests]

/-- Witness of C2: the two requests for the year 2023, without round and with round 37,
against a server that answers 404 with a page. -/
theorem dispatch_request_witness :
    (Client.Run (Sample.server 404 Sample.htmlBody) Sample.json "2023" "").requests
        = ["http://localhost:8000/campeao/2023"]
      ∧ (Client.Run (Sample.server 404 Sample.htmlBody) Sample.json "2023" "37").requests
        = ["http://localhost:8000/jogos/2023/37"] :=
  ⟨((dispatch_request (Sample.server 404 Sample.htmlBody) Sample.json "2023" ""
      (by decide)).1 rfl).1,
   ((dispatch_request (Sample.server 404 Sample.htmlBody) Sample.json "2023" "37"
      (by decide)).2 (by decide)).1⟩

/-! ## Missing year (C3) -/

/-- C3: with an empty year, whatever the round, the transport and the decoder, both
programs print the usage line and the hint line, call `Get` zero times and exit with
status 1. -/
theorem missing_year (t : Transport) (j : Json) (round : String) :
    Client.Run t j "" round = ⟨[], unlines [Client.usageMsg, Client.helpMsg], 1⟩
      ∧ Script.main t j "" round
        = ⟨[], unlines ["Uso: go run main.go -ano=2023 [-rodada=37]",
            "Se a rodada não for informada, mostra o campeão do ano"], 1⟩ := by
  constructor <;> rfl

/-! ## Server application error (C4) -/

/-- A message of the server without percent sign is surfaced verbatim on the round path:
the error text of the transport is the message, the output is `Erro: ` followed by the
message and the exit status is 1. -/
theorem server_message_verbatim (t : Transport) (j : Json) (year round body m : String)
    (status : Nat) (hy : year ≠ "") (hr : round ≠ "")
    (ht : t (Client.baseURL ++ "/jogos/" ++ year ++ "/" ++ round) = .response status body)
    (hs : status ≠ 200) (hj : j.unmarshalErrorResponse body = (⟨m⟩, none))
    (hm : '%' ∉ m.data) :
    (Client.GetMatches t j year round).err = some m
      ∧ (Client.Run t j year round).stdout = unlines ["Erro: " ++ m]
      ∧ (Client.Run t j year round).exit = 1 := by
  have he : (Client.GetMatches t j year round).err = some m := by
    simp [Client.GetMatches, Client.makeRequest, ht, StatusOK, hs, Client.handleErrorResponse,
      hj, errorf0_of_no_percent m hm]
  refine ⟨he, ?_, ?_⟩
  · simp [Client.Run, Client.parseFlags, hy, hr, Client.handleRoundQuery, he, unlines_cons,
      unlines_nil]
  · simp [Client.Run, Client.parseFlags, hy, hr, Client.handleRoundQuery, he]

/-- The example of the specification: status 400 with the message `ano inválido`. -/
theorem server_message_verbatim_witness :
    (Client.GetMatches (Sample.server 400 Sample.errorBody) Sample.json "2023" "1").err
        = some "ano inválido"
      ∧ (Client.Run (Sample.server 400 Sample.errorBody) Sample.json "2023" "1").stdout
        = unlines ["Erro: ano inválido"]
      ∧ (Client.Run (Sample.server 400 Sample.errorBody) Sample.json "2023" "1").exit = 1 :=
  server_message_verbatim (Sample.server 400 Sample.errorBody) Sample.json "2023" "1"
    Sample.errorBody "ano inválido" 400 (by decide) (by decide) rfl (by decide) rfl (by decide)

/-- C4 at the message `100%`: the body decodes as an ErrorResponse with that message, the
error text of the transport is `100%!(NOVERB)` and the output is `Erro: 100%!(NOVERB)`,
not `Erro: 100%`; the exit status is 1. -/
theorem server_message_percent :
    Sample.json.unmarshalErrorResponse Sample.percentBody = (⟨"100%"⟩, none)
      ∧ (Client.GetMatches (Sample.server 400 Sample.percentBody) Sample.json "2023" "1").err
        = some "100%!(NOVERB)"
      ∧ Client.Run (Sample.server 400 Sample.percentBody) Sample.json "2023" "1"
        = ⟨["http://localhost:8000/jogos/2023/1"], "Erro: 100%!(NOVERB)\n", 1⟩
      ∧ (Client.Run (Sample.server 400 Sample.percentBody) Sample.json "2023" "1").stdout
        ≠ unlines ["Erro: 100%"] := by
  refine ⟨rfl, rfl, rfl, ?_⟩
  decide

/-! ## Empty results (C5) -/

/-- C5: for a non-empty year Y, (1) without round, a response of status 200 decoded to a
Champion with empty team name gives exactly the line
`Ainda não houve campeão para o Brasileirão Y` and exit status 0; (2) with a non-empty
round, a response of status 200 decoded to a Round without matches gives exactly the line
`Ainda não há jogos disponíveis para o Brasileirão Y` and exit status 0. -/
theorem empty_results (t : Transport) (j : Json) (Y : String) (hY : Y ≠ "") :
    (∀ (body : String) (c : Champion),
        t (Client.baseURL ++ "/campeao/" ++ Y) = .response 200 body →
        j.unmarshalChampion body = (c, none) → c.ChampionTeam = "" →
        (Client.Run t j Y "").stdout = unlines ["Ainda não houve campeão para o Brasileirão " ++ Y]
          ∧ (Client.Run t j Y "").exit = 0)
      ∧ (∀ (R body : String) (d : Round), R ≠ "" →
        t (Client.baseURL ++ "/jogos/" ++ Y ++ "/" ++ R) = .response 200 body →
        j.unmarshalRound body = (d, none) → d.Matches = [] →
        (Client.Run t j Y R).stdout
            = unlines ["Ainda não há jogos disponíveis para o Brasileirão " ++ Y]
          ∧ (Client.Run t j Y R).exit = 0) := by
  constructor
  · intro body c ht hj hc
    simp [Client.Run, Client.parseFlags, hY, Client.handleChampionQuery, Client.GetChampion,
      Client.makeRequest, ht, StatusOK, hj, hc, unlines_cons, unlines_nil]
  · intro R body d hR ht hj hd
    simp [Client.Run, Client.parseFlags, hY, hR, Client.handleRoundQuery, Client.GetMatches,
      Client.makeRequest, ht, StatusOK, hj, hd, unlines_cons, unlines_nil]

/-- Witness of C5: the year 2023 without champion, and its round 38 without matches. -/
theorem empty_results_witness :
    ((Client.Run (Sample.server 200 Sample.noChampionBody) Sample.json "2023" "").stdout
        = unlines ["Ainda não houve campeão para o Brasileirão 2023"]
      ∧ (Client.Run (Sample.server 200 Sample.noChampionBody) Sample.json "2023" "").exit = 0)
    ∧ ((Client.Run (Sample.server 200 Sample.emptyRoundBody) Sample.json "2023" "38").stdout
        = unlines ["Ainda não há jogos disponíveis para o Brasileirão 2023"]
      ∧ (Client.Run (Sample.server 200 Sample.emptyRoundBody) Sample.json "2023" "38").exit
        = 0) :=
  ⟨(empty_results (Sample.server 200 Sample.noChampionBody) Sample.json "2023" (by decide)).1
      Sample.noChampionBody ⟨"2023", ""⟩ rfl rfl rfl,
   (empty_results (Sample.server 200 Sample.emptyRoundBody) Sample.json "2023" (by decide)).2
      "38" Sample.emptyRoundBody ⟨"2023", "38", []⟩ (by decide) rfl rfl rfl⟩

/-! ## Exit status (C6) -/

/-- The round fetch of the client fails exactly when the outcome is not a response of
status 200 with a body that decodes as a Round. -/
theorem GetMatches_err_isSome (t : Transport) (j : Json) (year round : String) :
    (Client.GetMatches t j year round).err.isSome = true ↔
      ¬ ∃ body, t (Client.baseURL ++ "/jogos/" ++ year ++ "/" ++ round) = .response 200 body
        ∧ (j.unmarshalRound body).2 = none := by
  unfold Client.GetMatches Client.makeRequest
  cases h : t (Client.baseURL ++ "/jogos/" ++ year ++ "/" ++ round) with
  | getError e => simp
  | readError e => simp
  | response status body =>
    by_cases hs : status = 200
    · subst hs
      simp [StatusOK]
      cases (j.unmarshalRound body).2 <;> simp
    · simp [StatusOK, hs, Client.handleErrorResponse]
      cases (j.unmarshalErrorResponse body).2 <;> simp

theorem handleChampionQuery_exit (t : Transport) (j : Json) (year : String) :
    (Client.handleChampionQuery t j year).exit = 0 := by
  unfold Client.handleChampionQuery
  simp only
  split
  · rfl
  · split <;> rfl

theorem handleRoundQuery_exit (t : Transport) (j : Json) (year round : String) :
    (Client.handleRoundQuery t j year round).exit
      = if (Client.GetMatches t j year round).err.isSome = true then 1 else 0 := by
  unfold Client.handleRoundQuery
  simp only
  split
  · rename_i e he
    simp [he]
  · rename_i he
    simp only [he, Option.isSome_none, Bool.false_eq_true, if_false]
    split <;> rfl

theorem script_campeao_exit (ano : String) (f : Fetch (Option Champion))
    (hf : f.err = none → f.result ≠ none) :
    (match f.err, f.result with
      | some err, _ => (⟨f.requests, err ++ "\n", 0⟩ : RunResult)
      | none, none => ⟨f.requests, "", 2⟩
      | none, some campeao =>
        if campeao.ChampionTeam = "" then
          ⟨f.requests, "Ainda não houve campeão para o Brasileirão " ++ ano ++ "\n", 0⟩
        else
          ⟨f.requests,
            "Campeão do Brasileirão " ++ campeao.Year ++ ": " ++ campeao.ChampionTeam ++ "\n",
            0⟩).exit = 0 := by
  split
  · rfl
  · rename_i he hv
    exact absurd hv (hf he)
  · split <;> rfl

theorem script_jogos_exit (ano : String) (f : Fetch (Option Round))
    (hf : f.err = none → f.result ≠ none) :
    (match f.err, f.result with
      | some err, _ => (⟨f.requests, "Erro: " ++ err ++ "\n", 1⟩ : RunResult)
      | none, none => ⟨f.requests, "", 2⟩
      | none, some dados =>
        if dados.Matches.length = 0 then
          ⟨f.requests, "Ainda não há jogos disponíveis para o Brasileirão " ++ ano ++ "\n", 0⟩
        else
          ⟨f.requests,
            dados.Matches.foldl (fun out jogo => out ++ Script.jogoLine jogo)
              ("Jogos da rodada " ++ dados.Number ++ " do Brasileirão " ++ dados.Year ++ ":\n\n"),
            0⟩).exit = if f.err.isSome = true then 1 else 0 := by
  split
  · rename_i e he
    simp [he]
  · rename_i he hv
    exact absurd hv (hf he)
  · rename_i d he hv
    simp only [he, Option.isSome_none, Bool.false_eq_true, if_false]
    split <;> rfl

/-- C6: for all flag values, transports and decoders, the exit status of both programs
is 1 when the year is empty or the round fetch (`GetMatches`, `getJogos`) returns an
error, and 0 otherwise; every failure of the champion fetch ends with status 0. -/
theorem exit_code (t : Transport) (j : Json) (year round : String) :
    (Client.Run t j year round).exit
        = (if year = "" ∨ (round ≠ "" ∧ (Client.GetMatches t j year round).err.isSome = true)
            then 1 else 0)
      ∧ (Script.main t j year round).exit
        = (if year = "" ∨ (round ≠ "" ∧ (Script.getJogos t j year round).err.isSome = true)
            then 1 else 0) := by
  constructor
  · by_cases hy : year = ""
    · simp [Client.Run, Client.parseFlags, hy]
    · by_cases hr : round = ""
      · simp [Client.Run, Client.parseFlags, hy, hr, handleChampionQuery_exit]
      · simp [Client.Run, Client.parseFlags, hy, hr, handleRoundQuery_exit]
  · by_cases hy : year = ""
    · simp [Script.main, hy]
    · by_cases hr : round = ""
      · simp only [Script.main, hy, hr, if_true, if_false, false_or, ne_eq, not_true_eq_false,
          false_and]
        exact script_campeao_exit year _ (fazerRequisicao_result _ _ _ _)
      · simp only [Script.main, hy, hr, if_false, false_or, ne_eq, not_false_eq_true, true_and]
        exact script_jogos_exit year _ (fazerRequisicao_result _ _ _ _)

/-! ## Unknown server error (C7) -/

/-- C7: for a non-empty year without round, a response whose status is not 200 and
whose body does not decode as an ErrorResponse makes `GetChampion` fail with the text
`unknown server error`; the client prints exactly that line, without prefix, and exits
with status 0. -/
theorem unknown_server_error (t : Transport) (j : Json) (Y body e : String) (status : Nat)
    (hY : Y ≠ "") (ht : t (Client.baseURL ++ "/campeao/" ++ Y) = .response status body)
    (hs : status ≠ 200) (hj : (j.unmarshalErrorResponse body).2 = some e) :
    (Client.GetChampion t j Y).err = some "unknown server error"
      ∧ (Client.Run t j Y "").stdout = unlines ["unknown server error"]
      ∧ (Client.Run t j Y "").exit = 0 := by
  have he : (Client.GetChampion t j Y).err = some "unknown server error" := by
    simp [Client.GetChampion, Client.makeRequest, ht, StatusOK, hs, Client.handleErrorResponse,
      hj, errorf0_unknown]
  refine ⟨he, ?_, ?_⟩
  · simp [Client.Run, Client.parseFlags, hY, Client.handleChampionQuery, he, unlines_cons,
      unlines_nil]
  · simp [Client.Run, Client.parseFlags, hY, Client.handleChampionQuery, he]

/-- Witness of C7: status 500 with a page as body. -/
theorem unknown_server_error_witness :
    (Client.GetChampion (Sample.server 500 Sample.htmlBody) Sample.json "2023").err
        = some "unknown server error"
      ∧ (Client.Run (Sample.server 500 Sample.htmlBody) Sample.json "2023" "").stdout
        = unlines ["unknown server error"]
      ∧ (Client.Run (Sample.server 500 Sample.htmlBody) Sample.json "2023" "").exit = 0 :=
  unknown_server_error (Sample.server 500 Sample.htmlBody) Sample.json "2023" Sample.htmlBody
    Sample.htmlErr 500 (by decide) rfl (by decide) rfl

/-! ## Status classification (C8) -/

/-- C8, as amended: a response is treated as a server failure exactly when its status
is not 200. For such a status both programs return the error built from the body decoded
as ErrorResponse, whatever the target shape, and no record; for status 200 the body is
decoded into the target shape and a body that decodes yields the decoded record without
error. -/
theorem status_classification (t : Transport) (j : Json) (url body : String) (status : Nat)
    (ht : t url = .response status body) (α : Type) (unmarshal : String → α × Option String)
    (zero : α) :
    (status ≠ 200 →
        (Client.makeRequest t j unmarshal url zero).err = Client.handleErrorResponse j body
        ∧ (Client.makeRequest t j unmarshal url zero).err ≠ none
        ∧ (Client.makeRequest t j unmarshal url zero).result = zero
        ∧ (Script.fazerRequisicao t j unmarshal url).err
          = (match (j.unmarshalErrorResponse body).2 with
              | some _ => some (Fmt.errorf0 "erro desconhecido do servidor")
              | none => some (Fmt.errorf0 (j.unmarshalErrorResponse body).1.Message))
        ∧ (Script.fazerRequisicao t j unmarshal url).result = none)
      ∧ (status = 200 →
        (Client.makeRequest t j unmarshal url zero).result = (unmarshal body).1
        ∧ (Client.makeRequest t j unmarshal url zero).err = (unmarshal body).2
        ∧ ((unmarshal body).2 = none →
          (Script.fazerRequisicao t j unmarshal url).result = some (unmarshal body).1
          ∧ (Script.fazerRequisicao t j unmarshal url).err = none)) := by
  constructor
  · intro hs
    refine ⟨?_, ?_, ?_, ?_, ?_⟩
    · simp [Client.makeRequest, ht, StatusOK, hs]
    · simp only [Client.makeRequest, ht, StatusOK, hs, ne_eq, not_false_eq_true, if_true,
        Client.handleErrorResponse]
      split <;> simp
    · simp [Client.makeRequest, ht, StatusOK, hs]
    · simp only [Script.fazerRequisicao, ht, StatusOK, hs, ne_eq, not_false_eq_true, if_true]
      split <;> simp_all
    · simp only [Script.fazerRequisicao, ht, StatusOK, hs, ne_eq, not_false_eq_true, if_true]
      split <;> rfl
  · intro hs
    subst hs
    refine ⟨?_, ?_, ?_⟩
    · simp [Client.makeRequest, ht, StatusOK]
    · simp [Client.makeRequest, ht, StatusOK]
    · intro hu
      simp [Script.fazerRequisicao, ht, StatusOK, hu]

/-- Witness of C8 as amended: status 404 with the error body of the specification is a
server failure carrying the message, status 200 with the Round of the specification is
decoded to that Round. -/
theorem status_classification_witness :
    (Client.makeRequest (Sample.server 404 Sample.errorBody) Sample.json
        Sample.json.unmarshalRound "http://localhost:8000/jogos/1900/1" Round.zero).err
        = some "ano inválido"
      ∧ (Script.fazerRequisicao (Sample.server 200 Sample.roundBody) Sample.json
        Sample.json.unmarshalRound "http://localhost:8000/jogos/2023/1").result
        = some ⟨"2023", "1", [⟨"2023-04-01", ⟨"A", 0⟩, ⟨"B", 0⟩, "1-0"⟩]⟩ :=
  ⟨((status_classification (Sample.server 404 Sample.errorBody) Sample.json
      "http://localhost:8000/jogos/1900/1" Sample.errorBody 404 rfl Round
      Sample.json.unmarshalRound Round.zero).1 (by decide)).1.trans rfl,
   (((status_classification (Sample.server 200 Sample.roundBody) Sample.json
      "http://localhost:8000/jogos/2023/1" Sample.roundBody 200 rfl Round
      Sample.json.unmarshalRound Round.zero).2 rfl).2.2 rfl).1.trans rfl⟩

/-- C8 as stated fails at status 201: the body decodes as a Round, yet both programs
treat the response as a server failure and return an error (with the empty text, the
body having no field `erro`) instead of the Round. -/
theorem created_is_server_failure :
    (Sample.json.unmarshalRound Sample.roundBody).2 = none
      ∧ (Client.GetMatches (Sample.server 201 Sample.roundBody) Sample.json "2023" "1").err
        = some ""
      ∧ (Client.GetMatches (Sample.server 201 Sample.roundBody) Sample.json "2023" "1").result
        = Round.zero
      ∧ (Script.getJogos (Sample.server 201 Sample.roundBody) Sample.json "2023" "1").err
        = some ""
      ∧ (Script.getJogos (Sample.server 201 Sample.roundBody) Sample.json "2023" "1").result
        = none := by
  refine ⟨rfl, rfl, rfl, rfl, rfl⟩

/-! ## Champion line (C9) -/

/-- C9, as amended: for a non-empty requested year without round, a response of status
200 decoded to a Champion with non-empty team name T makes both programs print exactly
the line `Campeão do Brasileirão ` followed by the year field of the decoded Champion,
`: ` and T, and end with status 0; the year printed is the requested one when the server
echoes it. -/
theorem champion_line (t : Transport) (j : Json) (Y body : String) (c : Champion)
    (hY : Y ≠ "") (ht : t (Client.baseURL ++ "/campeao/" ++ Y) = .response 200 body)
    (hj : j.unmarshalChampion body = (c, none)) (hc : c.ChampionTeam ≠ "") :
    Client.Run t j Y "" = ⟨[Client.baseURL ++ "/campeao/" ++ Y],
        unlines ["Campeão do Brasileirão " ++ c.Year ++ ": " ++ c.ChampionTeam], 0⟩
      ∧ Script.main t j Y "" = ⟨[Client.baseURL ++ "/campeao/" ++ Y],
        unlines ["Campeão do Brasileirão " ++ c.Year ++ ": " ++ c.ChampionTeam], 0⟩ := by
  constructor
  · simp [Client.Run, Client.parseFlags, hY, Client.handleChampionQuery, Client.GetChampion,
      Client.makeRequest, ht, StatusOK, hj, hc, unlines_cons, unlines_nil]
  · simp [Script.main, hY, Script.getCampeao, Script.fazerRequisicao, script_url_campeao, ht,
      StatusOK, hj, hc, unlines_cons, unlines_nil]

/-- Witness of C9 as amended: the year 2023 is requested, the server names the champion
of 2022. -/
theorem champion_line_witness :
    Client.Run (Sample.server 200 Sample.championBody) Sample.json "2023" ""
        = ⟨["http://localhost:8000/campeao/2023"],
          unlines ["Campeão do Brasileirão 2022: Palmeiras"], 0⟩
      ∧ Script.main (Sample.server 200 Sample.championBody) Sample.json "2023" ""
        = ⟨["http://localhost:8000/campeao/2023"],
          unlines ["Campeão do Brasileirão 2022: Palmeiras"], 0⟩ :=
  champion_line (Sample.server 200 Sample.championBody) Sample.json "2023" Sample.championBody
    ⟨"2022", "Palmeiras"⟩ (by decide) rfl rfl (by decide)

/-- C9 as stated fails when the year of the response is not the requested one: for the
request of 2023 answered with the champion of 2022, the line printed names 2022. -/
theorem champion_line_year_of_response :
    Sample.json.unmarshalChampion Sample.championBody = (⟨"2022", "Palmeiras"⟩, none)
      ∧ (Client.Run (Sample.server 200 Sample.championBody) Sample.json "2023" "").stdout
        ≠ unlines ["Campeão do Brasileirão 2023: Palmeiras"]
      ∧ (Script.main (Sample.server 200 Sample.championBody) Sample.json "2023" "").stdout
        ≠ unlines ["Campeão do Brasileirão 2023: Palmeiras"] := by
  refine ⟨rfl, ?_, ?_⟩ <;> decide

/-! ## The two programs (C10) -/

theorem agree_requests_exit_decoded (t : Transport) (j : Json) (year round : String) :
    (Script.main t j year round).requests = (Client.Run t j year round).requests
      ∧ (Script.main t j year round).exit = (Client.Run t j year round).exit
      ∧ (year = "" ∨ Decoded j round (t (requestURL year round)) →
        (Script.main t j year round).stdout = (Client.Run t j year round).stdout) := by
  by_cases hy : year = ""
  · subst hy
    exact ⟨rfl, rfl, fun _ => rfl⟩
  · by_cases hr : round = ""
    · subst hr
      simp only [Script.main, Client.Run, Client.parseFlags, hy, if_true, if_false,
        Script.getCampeao, Client.handleChampionQuery, Client.GetChampion,
        Script.fazerRequisicao, Client.makeRequest, script_url_campeao, requestURL, false_or]
      cases h : t (Client.baseURL ++ "/campeao/" ++ year) with
      | getError e => simp [Decoded]
      | readError e => simp [Decoded]
      | response status body =>
        by_cases hs : status = StatusOK
        · simp only [hs, Decoded, ne_eq, not_true_eq_false, if_false, if_true]
          cases hu : (j.unmarshalChampion body).2 with
          | some e => simp
          | none => simp
        · simp only [hs, Decoded, ne_eq, not_false_eq_true, if_true,
            Client.handleErrorResponse]
          cases hu : (j.unmarshalErrorResponse body).2 with
          | some e => simp
          | none => simp
    · simp only [Script.main, Client.Run, Client.parseFlags, hy, hr, if_false,
        Script.getJogos, Client.handleRoundQuery, Client.GetMatches,
        Script.fazerRequisicao, Client.makeRequest, script_url_jogos, requestURL, false_or]
      cases h : t (Client.baseURL ++ "/jogos/" ++ year ++ "/" ++ round) with
      | getError e => simp [Decoded]
      | readError e => simp [Decoded]
      | response status body =>
        by_cases hs : status = StatusOK
        · simp only [hs, Decoded, ne_eq, not_true_eq_false, if_false, if_true]
          cases hu : (j.unmarshalRound body).2 with
          | some e => simp [hr]
          | none => simp [hr, script_display_eq]
        · simp only [hs, Decoded, ne_eq, not_false_eq_true, if_true,
            Client.handleErrorResponse]
          cases hu : (j.unmarshalErrorResponse body).2 with
          | some e => simp
          | none => simp

theorem client_error_line (t : Transport) (j : Json) (year round err : String)
    (hy : year ≠ "")
    (he : (Client.makeRequest t j j.unmarshalChampion (requestURL year round) Champion.zero).err
        = some err
      ∧ (Client.makeRequest t j j.unmarshalRound (requestURL year round) Round.zero).err
        = some err) :
    (Client.Run t j year round).stdout = unlines [errorPrefix round ++ err] := by
  by_cases hr : round = ""
  · subst hr
    have h1 := he.1
    simp only [requestURL, if_true] at h1
    simp [Client.Run, Client.parseFlags, hy, Client.handleChampionQuery, Client.GetChampion, h1,
      errorPrefix, unlines_cons, unlines_nil]
  · have h2 := he.2
    simp only [requestURL, hr, if_false] at h2
    simp [Client.Run, Client.parseFlags, hy, hr, Client.handleRoundQuery, Client.GetMatches, h2,
      errorPrefix, unlines_cons, unlines_nil]

theorem script_error_line (t : Transport) (j : Json) (year round err : String)
    (hy : year ≠ "")
    (he : (Script.fazerRequisicao t j j.unmarshalChampion (requestURL year round)).err
        = some err
      ∧ (Script.fazerRequisicao t j j.unmarshalRound (requestURL year round)).err
        = some err) :
    (Script.main t j year round).stdout = unlines [errorPrefix round ++ err] := by
  by_cases hr : round = ""
  · subst hr
    have h1 := he.1
    simp only [requestURL, if_true] at h1
    simp [Script.main, hy, Script.getCampeao, script_url_campeao, h1,
      errorPrefix, unlines_cons, unlines_nil]
  · have h2 := he.2
    simp only [requestURL, hr, if_false] at h2
    simp [Script.main, hy, hr, Script.getJogos, script_url_jogos, h2,
      errorPrefix, unlines_cons, unlines_nil]

/-- C10, as amended: for all flag values, transports and decoders the script and the
client call `Get` on the same URLs and end with the same exit status; they write the
same output when the year is empty and when the outcome is a response whose body
decodes (as ErrorResponse for a status other than 200, as the target record for 200).
For a non-empty year each program words three failures itself, on one line that starts
with `Erro: ` on the round path and with nothing on the champion path: when `Get` fails
with the text e the script prints `erro ao fazer requisição: e` and the client
`request error: e`; when the body cannot be read, `erro ao ler resposta: e` and
`response read error: e`; when the status is not 200 and the body does not decode as an
ErrorResponse, `erro desconhecido do servidor` and `unknown server error`. -/
theorem script_client_agree (t : Transport) (j : Json) (year round : String) :
    (Script.main t j year round).requests = (Client.Run t j year round).requests
      ∧ (Script.main t j year round).exit = (Client.Run t j year round).exit
      ∧ (year = "" ∨ Decoded j round (t (requestURL year round)) →
        (Script.main t j year round).stdout = (Client.Run t j year round).stdout)
      ∧ (year ≠ "" → ∀ e : String, t (requestURL year round) = .getError e →
        (Script.main t j year round).stdout
            = unlines [errorPrefix round ++ ("erro ao fazer requisição: " ++ e)]
          ∧ (Client.Run t j year round).stdout
            = unlines [errorPrefix round ++ ("request error: " ++ e)])
      ∧ (year ≠ "" → ∀ e : String, t (requestURL year round) = .readError e →
        (Script.main t j year round).stdout
            = unlines [errorPrefix round ++ ("erro ao ler resposta: " ++ e)]
          ∧ (Client.Run t j year round).stdout
            = unlines [errorPrefix round ++ ("response read error: " ++ e)])
      ∧ (year ≠ "" → ∀ (status : Nat) (body e : String),
        t (requestURL year round) = .response status body → status ≠ 200 →
        (j.unmarshalErrorResponse body).2 = some e →
        (Script.main t j year round).stdout
            = unlines [errorPrefix round ++ "erro desconhecido do servidor"]
          ∧ (Client.Run t j year round).stdout
            = unlines [errorPrefix round ++ "unknown server error"]) := by
  have h := agree_requests_exit_decoded t j year round
  refine ⟨h.1, h.2.1, h.2.2, ?_, ?_, ?_⟩
  · intro hy e ht
    constructor
    · apply script_error_line t j year round _ hy
      constructor <;> simp [Script.fazerRequisicao, ht]
    · apply client_error_line t j year round _ hy
      constructor <;> simp [Client.makeRequest, ht]
  · intro hy e ht
    constructor
    · apply script_error_line t j year round _ hy
      constructor <;> simp [Script.fazerRequisicao, ht]
    · apply client_error_line t j year round _ hy
      constructor <;> simp [Client.makeRequest, ht]
  · intro hy status body e ht hs hj
    constructor
    · apply script_error_line t j year round _ hy
      constructor <;>
        simp [Script.fazerRequisicao, ht, StatusOK, hs, hj, errorf0_desconhecido]
    · apply client_error_line t j year round _ hy
      constructor <;>
        simp [Client.makeRequest, ht, StatusOK, hs, Client.handleErrorResponse, hj,
          errorf0_unknown]

/-- Witness of C10 as amended: the same output on the Round of the specification, and
the two wordings of a refused connection on the round path. -/
theorem script_client_agree_witness :
    (Script.main (Sample.server 200 Sample.roundBody) Sample.json "2023" "1").stdout
        = (Client.Run (Sample.server 200 Sample.roundBody) Sample.json "2023" "1").stdout
      ∧ ((Script.main (fun _ => .getError "connection refused") Sample.json "2023" "1").stdout
          = unlines ["Erro: erro ao fazer requisição: connection refused"]
        ∧ (Client.Run (fun _ => .getError "connection refused") Sample.json "2023" "1").stdout
          = unlines ["Erro: request error: connection refused"]) :=
  ⟨(script_client_agree (Sample.server 200 Sample.roundBody) Sample.json "2023" "1").2.2.1
      (Or.inr (show (Sample.json.unmarshalRound Sample.roundBody).2 = none from rfl)),
   (script_client_agree (fun _ => .getError "connection refused") Sample.json "2023"
      "1").2.2.2.1 (by decide) "connection refused" rfl⟩

/-- C10 as stated fails for a response of status 500 whose body is not JSON: the two
programs issue the same request and end with the same status, but the script prints
`erro desconhecido do servidor` where the client prints `unknown server error`. -/
theorem script_client_differ :
    (Script.main (Sample.server 500 Sample.htmlBody) Sample.json "2023" "").requests
        = (Client.Run (Sample.server 500 Sample.htmlBody) Sample.json "2023" "").requests
      ∧ (Script.main (Sample.server 500 Sample.htmlBody) Sample.json "2023" "").stdout
        = "erro desconhecido do servidor\n"
      ∧ (Client.Run (Sample.server 500 Sample.htmlBody) Sample.json "2023" "").stdout
        = "unknown server error\n"
      ∧ (Script.main (Sample.server 500 Sample.htmlBody) Sample.json "2023" "").stdout
        ≠ (Client.Run (Sample.server 500 Sample.htmlBody) Sample.json "2023" "").stdout := by
  refine ⟨rfl, rfl, rfl, ?_⟩
  decide

end Brasileirao
